import Mathlib

/-!
# Verification of the dgraph geo-filter core (`types/geofilter.go`)

Shallow embedding of the geo predicate token generator and the exact-match
predicate evaluator.  The spherical-geometry primitives (s2 loops, caps,
cell covers, parsing) are external collaborators of the file under study;
they are abstracted as opaque `Nat` identifiers together with a record
`S2Ops` of the primitive operations the file calls.  All theorems quantify
over an arbitrary `S2Ops`, so they capture exactly the combinator logic of
`geofilter.go`, not facts about any particular geometry library.

Go panics (failed `x.AssertTruef` and nil-pointer dereference) are modelled
as `Option.none`; an ordinary Go `error` return is `Except.error`.
-/

/-- The geometry value decoded from a stored attribute or a query literal
(`geom.T` in the source).  Polygons and the points are opaque payloads;
`other` stands for any geometry kind the switch statements do not handle. -/
inductive GeomT where
  | point (p : Nat)
  | polygon (poly : Nat)
  | multiPolygon (polys : List Nat)
  | other
  deriving DecidableEq

/-- The error values produced by `GetGeoTokens` / `queryTokensGeo` /
`nearQueryKeys`, one constructor per `x.Errorf` site in the source. -/
inductive GeoErr where
  /-- "near function requires 2 arguments, but got %d" and the analogous
  argument-count errors of within/contains/intersects. -/
  | invalidArgCount (fn : String) (got : Nat)
  /-- "Error while converting distance to float" -/
  | distanceParseFailure
  /-- "Distance cannot be negative" -/
  | negativeDistance
  /-- "Invalid max distance specified for a near query" (`d <= 0`). -/
  | invalidDistance
  /-- `loopFromPolygon` failed during query normalization. -/
  | geometryDecodeFailure
  /-- `convertToGeom` failed on the geometry literal. -/
  | geometryConvertFailure
  /-- "Cannot query using a geometry of type %T" -/
  | cannotQueryGeometryType
  /-- `indexCells` returned an error. -/
  | indexCellsFailure
  /-- "Require a polygon for within query" -/
  | requirePolygonWithin
  /-- "Cannot use a polygon in a near query" -/
  | cannotUsePolygonNear
  /-- "Require a polygon for intersects query" -/
  | requirePolygonIntersects
  /-- "Unknown query type" -/
  | unknownQueryType
  /-- "Invalid geo function" -/
  | invalidGeoFunction
  deriving DecidableEq

/-- The primitive spherical-geometry and decoding operations that
`geofilter.go` delegates to the s2 library and to the rest of the `types`
package.  Loops, points, caps and cells are opaque `Nat` identifiers. -/
structure S2Ops where
  /-- `pointFromPoint`: convert a `geom.Point` payload to an s2 point. -/
  pointFromPoint : Nat → Nat
  /-- `loopFromPolygon`: convert a polygon payload to an s2 loop;
  `none` models the error return (degenerate ring, ...). -/
  loopFromPolygon : Nat → Option Nat
  /-- `Contains(l1, l2)`: loop `l1` contains loop `l2`. -/
  loopContains : Nat → Nat → Bool
  /-- `Intersects(l1, l2)`: loop `l1` intersects loop `l2`. -/
  loopIntersects : Nat → Nat → Bool
  /-- `loop.ContainsPoint(pt)`. -/
  containsPoint : Nat → Nat → Bool
  /-- `pt.ApproxEqual(pt2)`: tolerance-based point comparison. -/
  approxEqual : Nat → Nat → Bool
  /-- `cap.ContainsPoint(pt)`. -/
  capContainsPoint : Nat → Nat → Bool
  /-- `cap.Contains(loop.CapBound())`: the conservative polygon-in-cap test. -/
  capContainsCapBound : Nat → Nat → Bool
  /-- `indexCells(g)`: returns `(parents, cover)`; `none` models its error. -/
  indexCells : GeomT → Option (List Nat × List Nat)
  /-- `EarthAngle(d)`: linear distance to angular radius. -/
  earthAngle : Rat → Rat
  /-- `s2.CapFromCenterAngle(pt, a)`. -/
  capFromCenterAngle : Nat → Rat → Nat
  /-- `indexCellsForCap(c)`: the cover of a cap (never fails in the source). -/
  indexCellsForCap : Nat → List Nat
  /-- `strconv.ParseFloat(s, 64)`; `none` models the parse error. -/
  parseFloat : String → Option Rat
  /-- `convertToGeom(s)`: parse a geometry literal; `none` models its error. -/
  convertToGeom : String → Option GeomT
  /-- Modelled from the spec: decoding of a stored attribute's raw bytes into
  a typed geometry value (`Convert(src, GeoID)`, defined outside this file);
  `none` models the decode error that is swallowed per candidate. -/
  decodeGeo : List Nat → Option GeomT

/-- `QueryType` is a Go `byte`; values other than the four named constants
fall into the `default` branch of the switch statements. -/
abbrev QueryType := Nat

/-- QueryTypeWithin finds all points that are within the given geometry. -/
def QueryTypeWithin : QueryType := 0

/-- QueryTypeContains finds all polygons that contain the given point. -/
def QueryTypeContains : QueryType := 1

/-- QueryTypeIntersects finds all objects that intersect the given geometry. -/
def QueryTypeIntersects : QueryType := 2

/-- QueryTypeNear finds all points within the given distance of a point. -/
def QueryTypeNear : QueryType := 3

/-- `GeoQueryData`: the query filter.  Fields as in the source: an optional
point, a (possibly empty) loop list, an optional cap, and the query type. -/
structure GeoQueryData where
  pt : Option Nat
  loops : List Nat
  cap : Option Nat
  qtype : QueryType
  deriving DecidableEq

/-- `IsGeoFunc` returns whether a function name is of geo type. -/
def IsGeoFunc (str : String) : Bool :=
  str = "near" || str = "contains" || str = "within" || str = "intersects"

/-- Modelled from the spec: the `parent` family tag of an index token
(the constant `parentPrefix`, defined outside this file). -/
def parentTag : String := "p/"

/-- Modelled from the spec: the `cover` family tag of an index token
(the constant `coverPrefix`, defined outside this file). -/
def coverTag : String := "c/"

/-- Modelled from the spec: `createTokens` (defined outside this file) turns
each cell into a string index key, the family tag concatenated with the
cell identifier. -/
def createTokens (cells : List Nat) (tag : String) : List String :=
  cells.map fun c => tag ++ toString c

/-- Modelled from the spec: `parentCoverTokens` (defined outside this file)
is the union of the within-keys derivation (parent family over the cover
cells) and the contains-keys derivation (cover family over the parents). -/
def parentCoverTokens (parents cover : List Nat) : List String :=
  createTokens cover parentTag ++ createTokens parents coverTag

/-- The loop of the multi-polygon case of `queryTokensGeo`: one loop per
constituent polygon, aborting the whole conversion on the first failure. -/
def loopsFromMultiPolygon (ops : S2Ops) : List Nat → Option (List Nat)
  | [] => some []
  | p :: ps =>
    match ops.loopFromPolygon p with
    | none => none
    | some l => (loopsFromMultiPolygon ops ps).map (l :: ·)

/-- `nearQueryKeys` creates the keys and filter for a near query. -/
def nearQueryKeys (ops : S2Ops) (pt : Nat) (d : Rat) :
    Except GeoErr (List String × GeoQueryData) :=
  if d ≤ 0 then .error .invalidDistance
  else
    let a := ops.earthAngle d
    let c := ops.capFromCenterAngle pt a
    let cu := ops.indexCellsForCap c
    .ok (createTokens cu parentTag, ⟨none, [], some c, QueryTypeNear⟩)

/-- The switch on the geometry kind at the top of `queryTokensGeo`,
building the `pt` / `loops` pair (the region normalizer of the spec). -/
def normalizeRegion (ops : S2Ops) : GeomT → Except GeoErr (Option Nat × List Nat)
  | .point v => .ok (some (ops.pointFromPoint v), [])
  | .polygon v =>
    match ops.loopFromPolygon v with
    | none => .error .geometryDecodeFailure
    | some l => .ok (none, [l])
  | .multiPolygon v =>
    match loopsFromMultiPolygon ops v with
    | none => .error .geometryDecodeFailure
    | some ls => .ok (none, ls)
  | .other => .error .cannotQueryGeometryType

/-- `queryTokensGeo` returns the index tokens and the query filter for a
geo query.  The outer `Option` models panics: `none` is the failed
`x.AssertTruef` (or the nil `*pt` dereference in the near branch). -/
def queryTokensGeo (ops : S2Ops) (qt : QueryType) (g : GeomT)
    (maxDistance : Rat) : Option (Except GeoErr (List String × GeoQueryData)) :=
  match normalizeRegion ops g with
  | .error e => some (.error e)
  | .ok (pt, loops) =>
    -- x.AssertTruef(len(loops) > 0 || pt != nil, "We should have a point or a loop.")
    if loops = [] ∧ pt = none then none
    else
      match ops.indexCells g with
      | none => some (.error .indexCellsFailure)
      | some (parents, cover) =>
        if qt = QueryTypeWithin then
          if loops = [] then some (.error .requirePolygonWithin)
          else some (.ok (createTokens cover parentTag, ⟨none, loops, none, qt⟩))
        else if qt = QueryTypeContains then
          some (.ok (createTokens parents coverTag, ⟨pt, loops, none, qt⟩))
        else if qt = QueryTypeNear then
          if loops ≠ [] then some (.error .cannotUsePolygonNear)
          else
            match pt with
            | some p => some (nearQueryKeys ops p maxDistance)
            | none => none
        else if qt = QueryTypeIntersects then
          if loops = [] then some (.error .requirePolygonIntersects)
          else some (.ok (parentCoverTokens parents cover, ⟨none, loops, none, qt⟩))
        else some (.error .unknownQueryType)

/-- `strings.ToLower`, modelled structurally over the character list (the
geo function names are plain ASCII, where the two agree). -/
def lowerString (s : String) : String := ⟨s.data.map Char.toLower⟩

/-- `GetGeoTokens` dispatches on the (lower-cased) function name, validates
the argument count, parses the distance for near, converts the geometry
literal, and calls `queryTokensGeo`.  The outer `Option` models the
`x.AssertTruef(len(funcArgs) > 1, ...)` panic and panics further down. -/
def GetGeoTokens (ops : S2Ops) (funcArgs : List String) :
    Option (Except GeoErr (List String × GeoQueryData)) :=
  if funcArgs.length ≤ 1 then none
  else
    let funcName := lowerString (funcArgs.headD "")
    if funcName = "near" then
      if funcArgs.length ≠ 4 then
        some (.error (.invalidArgCount "near" funcArgs.length))
      else
        match ops.parseFloat (funcArgs.getD 3 "") with
        | none => some (.error .distanceParseFailure)
        | some maxDist =>
          if maxDist < 0 then some (.error .negativeDistance)
          else
            match ops.convertToGeom (funcArgs.getD 2 "") with
            | none => some (.error .geometryConvertFailure)
            | some g => queryTokensGeo ops QueryTypeNear g maxDist
    else if funcName = "within" then
      if funcArgs.length ≠ 3 then
        some (.error (.invalidArgCount "within" funcArgs.length))
      else
        match ops.convertToGeom (funcArgs.getD 2 "") with
        | none => some (.error .geometryConvertFailure)
        | some g => queryTokensGeo ops QueryTypeWithin g 0
    else if funcName = "contains" then
      if funcArgs.length ≠ 3 then
        some (.error (.invalidArgCount "contains" funcArgs.length))
      else
        match ops.convertToGeom (funcArgs.getD 2 "") with
        | none => some (.error .geometryConvertFailure)
        | some g => queryTokensGeo ops QueryTypeContains g 0
    else if funcName = "intersects" then
      if funcArgs.length ≠ 3 then
        some (.error (.invalidArgCount "intersects" funcArgs.length))
      else
        match ops.convertToGeom (funcArgs.getD 2 "") with
        | none => some (.error .geometryConvertFailure)
        | some g => queryTokensGeo ops QueryTypeIntersects g 0
    else some (.error .invalidGeoFunction)

/-- `withinCapPolygon`: the cap contains the loop's bounding cap. -/
def withinCapPolygon (ops : S2Ops) (g1 : Nat) (g2 : Nat) : Bool :=
  ops.capContainsCapBound g2 g1

/-- `loopWithinMultiloops`: some loop of `loops` contains `l`. -/
def loopWithinMultiloops (ops : S2Ops) (l : Nat) (loops : List Nat) : Bool :=
  loops.any fun s2loop => ops.loopContains s2loop l

/-- `GeoQueryData.isWithin`: is the candidate geometry within the query's
loops or cap?  `none` models the failed assertion (all three filter fields
empty) and the nil-cap dereference in the point branch. -/
def GeoQueryData.isWithin (q : GeoQueryData) (ops : S2Ops) (g : GeomT) :
    Option Bool :=
  if q.pt = none ∧ q.loops = [] ∧ q.cap = none then none
  else
    match g with
    | .point gp =>
      let s2pt := ops.pointFromPoint gp
      match q.pt with
      | some qpt => some (ops.approxEqual qpt s2pt)
      | none =>
        if q.loops ≠ [] then
          some (q.loops.any fun l => ops.containsPoint l s2pt)
        else
          match q.cap with
          | some c => some (ops.capContainsPoint c s2pt)
          | none => none
    | .polygon poly =>
      match ops.loopFromPolygon poly with
      | none => some false
      | some s2loop =>
        if q.loops ≠ [] then
          some (q.loops.any fun l => ops.loopContains l s2loop)
        else
          match q.cap with
          | some c => some (withinCapPolygon ops s2loop c)
          | none => some false
    | .multiPolygon polys =>
      -- each polygon of the multipolygon must be within some loop of q.loops;
      -- a conversion failure contributes `false`, which also stops `List.all`.
      if q.loops ≠ [] then
        some (polys.all fun p =>
          match ops.loopFromPolygon p with
          | none => false
          | some l => loopWithinMultiloops ops l q.loops)
      else
        match q.cap with
        | some c =>
          some (polys.all fun p =>
            match ops.loopFromPolygon p with
            | none => false
            | some l => withinCapPolygon ops l c)
        | none => some false
    | .other => some false

/-- The inline for-loop of the point case of the multi-polygon branch of
`GeoQueryData.contains`: `some b` models an early `return b` (a conversion
failure returns `false`, a containing ring returns `true`), `none` models
the loop running off the end and execution continuing below it. -/
def containsPtScan (ops : S2Ops) (qpt : Nat) : List Nat → Option Bool
  | [] => none
  | p :: ps =>
    match ops.loopFromPolygon p with
    | none => some false
    | some l =>
      if ops.containsPoint l qpt then some true else containsPtScan ops qpt ps

/-- `multiPolygonContainsLoop`: some polygon of the multipolygon contains
loop `l`; a conversion failure returns `false` for the whole scan. -/
def multiPolygonContainsLoop (ops : S2Ops) (polys : List Nat) (l : Nat) :
    Bool :=
  match polys with
  | [] => false
  | p :: ps =>
    match ops.loopFromPolygon p with
    | none => false
    | some s2loop =>
      ops.loopContains s2loop l || multiPolygonContainsLoop ops ps l

/-- `GeoQueryData.contains`: does the candidate geometry contain the query
point / loops?  `none` models the failed assertion. -/
def GeoQueryData.contains (q : GeoQueryData) (ops : S2Ops) (g : GeomT) :
    Option Bool :=
  if q.pt = none ∧ q.loops = [] then none
  else
    match g with
    | .polygon poly =>
      match ops.loopFromPolygon poly with
      | none => some false
      | some s2loop =>
        match q.pt with
        | some qpt => some (ops.containsPoint s2loop qpt)
        | none => some (q.loops.all fun l => ops.loopContains s2loop l)
    | .multiPolygon polys =>
      let afterPt : Option Bool :=
        match q.pt with
        | some qpt => containsPtScan ops qpt polys
        | none => none
      match afterPt with
      | some b => some b
      | none =>
        if q.loops ≠ [] then
          some (q.loops.all fun l => multiPolygonContainsLoop ops polys l)
        else some false
    | _ => some false

/-- The multi-polygon scan of `GeoQueryData.intersects`: each polygon is
converted (failure returns `false` for the whole candidate) and compared
with every query loop, short-circuiting on the first intersection. -/
def intersectsMultiScan (ops : S2Ops) (qloops : List Nat) : List Nat → Bool
  | [] => false
  | p :: ps =>
    match ops.loopFromPolygon p with
    | none => false
    | some l =>
      qloops.any (fun loop => ops.loopIntersects l loop) ||
        intersectsMultiScan ops qloops ps

/-- `GeoQueryData.intersects`: does the candidate geometry intersect some
query loop?  `none` models the failed assertion (empty loop list). -/
def GeoQueryData.intersects (q : GeoQueryData) (ops : S2Ops) (g : GeomT) :
    Option Bool :=
  if q.loops = [] then none
  else
    match g with
    | .point gp =>
      let p := ops.pointFromPoint gp
      some (q.loops.any fun l => ops.containsPoint l p)
    | .polygon poly =>
      match ops.loopFromPolygon poly with
      | none => some false
      | some l => some (q.loops.any fun loop => ops.loopIntersects l loop)
    | .multiPolygon polys => some (intersectsMultiScan ops q.loops polys)
    | .other => some false

/-- `MatchesFilter` applies the query filter to a geo value: the switch on
`q.qtype`, with the silent `q.cap == nil → false` guard in the near case
and `false` for an unrecognized query type. -/
def GeoQueryData.MatchesFilter (q : GeoQueryData) (ops : S2Ops) (g : GeomT) :
    Option Bool :=
  if q.qtype = QueryTypeWithin then q.isWithin ops g
  else if q.qtype = QueryTypeContains then q.contains ops g
  else if q.qtype = QueryTypeIntersects then q.intersects ops g
  else if q.qtype = QueryTypeNear then
    match q.cap with
    | none => some false
    | some _ => q.isWithin ops g
  else some false

/-- A stored attribute value as seen by `FilterGeoUids`: the raw bytes and
the declared type tag (`protos.TaskValue`). -/
structure TaskValue where
  val : List Nat
  valType : Nat
  deriving DecidableEq

/-- Modelled from the spec: the type tag of geometry values (the constant
`GeoID` of the `types` package, defined outside this file). -/
def GeoID : Nat := 13

/-- The loop body of `FilterGeoUids` over the paired uid/value lists:
empty value, wrong type tag, and decode failure skip the candidate;
`none` propagates a panic of the evaluator. -/
def filterGeoLoop (ops : S2Ops) (q : GeoQueryData) :
    List Nat → List TaskValue → Option (List Nat)
  | [], _ => some []
  | _, [] => some []
  | u :: us, v :: vs =>
    if v.val = [] then filterGeoLoop ops q us vs
    else if v.valType ≠ GeoID then filterGeoLoop ops q us vs
    else
      match ops.decodeGeo v.val with
      | none => filterGeoLoop ops q us vs
      | some g =>
        match q.MatchesFilter ops g with
        | none => none
        | some true => (filterGeoLoop ops q us vs).map (u :: ·)
        | some false => filterGeoLoop ops q us vs

/-- `FilterGeoUids` filters the uids by evaluating the query filter on the
decoded stored values.  `none` models the `x.AssertTruef` on mismatched
lengths and any panic of the evaluator. -/
def FilterGeoUids (ops : S2Ops) (uids : List Nat) (values : List TaskValue)
    (q : GeoQueryData) : Option (List Nat) :=
  if values.length ≠ uids.length then none
  else filterGeoLoop ops q uids values

/-! ## Claim-side readings

The spec states the multi-ring semantics in terms of individual rings.
A candidate ring that fails to convert to a loop is contained in / contains
/ intersects nothing under these readings. -/

/-- Candidate ring `p` is within-contained by some loop of `loops`. -/
def ringWithinSomeLoop (ops : S2Ops) (loops : List Nat) (p : Nat) : Bool :=
  match ops.loopFromPolygon p with
  | none => false
  | some l => loopWithinMultiloops ops l loops

/-- Candidate ring `p` contains the query point `qpt`. -/
def ringContainsQueryPt (ops : S2Ops) (qpt : Nat) (p : Nat) : Bool :=
  match ops.loopFromPolygon p with
  | none => false
  | some l => ops.containsPoint l qpt

/-- Candidate ring `p` contains the query loop `l`. -/
def ringContainsLoop (ops : S2Ops) (l : Nat) (p : Nat) : Bool :=
  match ops.loopFromPolygon p with
  | none => false
  | some s2loop => ops.loopContains s2loop l

/-- Candidate ring `p` intersects some loop of `loops`. -/
def ringIntersectsSomeLoop (ops : S2Ops) (loops : List Nat) (p : Nat) : Bool :=
  match ops.loopFromPolygon p with
  | none => false
  | some l => loops.any fun loop => ops.loopIntersects l loop

/-- The query-filter invariant of the spec: exactly one populated
discriminant among point / non-empty loop set / cap, matching the
predicate kind. -/
def wellFormedFilter (q : GeoQueryData) : Prop :=
  (q.qtype = QueryTypeWithin ∧ q.pt = none ∧ q.loops ≠ [] ∧ q.cap = none) ∨
  (q.qtype = QueryTypeContains ∧ q.cap = none ∧
    ((q.pt ≠ none ∧ q.loops = []) ∨ (q.pt = none ∧ q.loops ≠ []))) ∨
  (q.qtype = QueryTypeIntersects ∧ q.pt = none ∧ q.loops ≠ [] ∧ q.cap = none) ∨
  (q.qtype = QueryTypeNear ∧ q.pt = none ∧ q.loops = [] ∧ q.cap ≠ none)

/-- A concrete instance of the primitive operations, used by witnesses:
every conversion succeeds and every geometric test is positive. -/
def opsAll : S2Ops where
  pointFromPoint := id
  loopFromPolygon := some
  loopContains := fun _ _ => true
  loopIntersects := fun _ _ => true
  containsPoint := fun _ _ => true
  approxEqual := fun _ _ => true
  capContainsPoint := fun _ _ => true
  capContainsCapBound := fun _ _ => true
  indexCells := fun _ => some ([0], [1])
  earthAngle := id
  capFromCenterAngle := fun p _ => p
  indexCellsForCap := fun _ => [2]
  parseFloat := fun _ => some 1
  convertToGeom := fun _ => some (.point 0)
  decodeGeo := fun _ => some (.point 0)

/-- Operations where loop `10` contains loop `1` and nothing else holds:
the disjoint-squares scenario of the spec (ring `1` is inside filter loop
`10`, ring `2` is inside no filter loop). -/
def opsTwoSquares : S2Ops :=
  { opsAll with loopContains := fun a b => a == 10 && b == 1 }

/-- Operations where polygon `0` fails to convert to a loop and every other
polygon converts to itself; all geometric tests are positive. -/
def opsBadFirstRing : S2Ops :=
  { opsAll with loopFromPolygon := fun p => if p == 0 then none else some p }

/-- Operations whose distance literal always parses to `0`. -/
def opsZeroDist : S2Ops := { opsAll with parseFloat := fun _ => some 0 }

/-- Operations whose distance literal never parses. -/
def opsNoParse : S2Ops := { opsAll with parseFloat := fun _ => none }

/-- Operations for the scanner scenario: bytes `[9]` decode to a point
inside the filter loop, any other bytes to a point outside it. -/
def opsScan : S2Ops :=
  { opsAll with
    decodeGeo := fun bytes =>
      if bytes == [9] then some (.point 1) else some (.point 2),
    containsPoint := fun _ pt => pt == 1 }

/-- The claim-side keep condition of the candidate scanner: non-empty raw
value, geometry type tag, successful decode, and a true evaluation. -/
def keepCandidate (ops : S2Ops) (q : GeoQueryData) (v : TaskValue) : Bool :=
  if v.val = [] then false
  else if v.valType ≠ GeoID then false
  else
    match ops.decodeGeo v.val with
    | none => false
    | some g =>
      match q.MatchesFilter ops g with
      | some true => true
      | _ => false

/-- C1: for a filter holding a non-empty loop set with predicate kind
within (or near, with its cap present), a multi-polygon candidate matches
iff EVERY constituent ring is within-contained by SOME filter loop. -/
theorem C1_within_multipolygon_and_over_rings (ops : S2Ops)
    (q : GeoQueryData) (polys : List Nat) (hl : q.loops ≠ [])
    (hqt : q.qtype = QueryTypeWithin ∨
      (q.qtype = QueryTypeNear ∧ q.cap ≠ none)) :
    q.MatchesFilter ops (.multiPolygon polys) =
      some (polys.all (ringWithinSomeLoop ops q.loops)) := by
  have hwithin : q.isWithin ops (.multiPolygon polys) =
      some (polys.all (ringWithinSomeLoop ops q.loops)) := by
    unfold GeoQueryData.isWithin
    rw [if_neg (by simp [hl])]
    simp only [hl, if_pos, ne_eq, not_false_iff, if_true]
    rfl
  rcases hqt with h | ⟨h, hc⟩
  · unfold GeoQueryData.MatchesFilter
    rw [if_pos h]
    exact hwithin
  · unfold GeoQueryData.MatchesFilter
    rw [if_neg (by simp [h, QueryTypeNear, QueryTypeWithin]),
        if_neg (by simp [h, QueryTypeNear, QueryTypeContains]),
        if_neg (by simp [h, QueryTypeNear, QueryTypeIntersects]),
        if_pos h]
    cases hcap : q.cap with
    | none => exact absurd hcap hc
    | some c => exact hwithin

/-- Witness for C1: filter loops `{10, 11}`, candidate rings `{1, 2}`;
ring `1` is inside loop `10`, ring `2` is inside no loop, and the whole
candidate evaluates to false. -/
theorem C1_witness :
    ringWithinSomeLoop opsTwoSquares [10, 11] 1 = true ∧
    ringWithinSomeLoop opsTwoSquares [10, 11] 2 = false ∧
    GeoQueryData.MatchesFilter ⟨none, [10, 11], none, QueryTypeWithin⟩
      opsTwoSquares (.multiPolygon [1, 2]) = some false := by
  refine ⟨by decide, by decide, ?_⟩
  rw [C1_within_multipolygon_and_over_rings opsTwoSquares
    ⟨none, [10, 11], none, QueryTypeWithin⟩ [1, 2] (by decide) (Or.inl rfl)]
  decide

/-- Under `hdec` (every ring converts), the point scan of the contains
multi-polygon branch finds a containing ring iff some ring contains the
point, and otherwise runs off the end. -/
theorem containsPtScan_eq_of_decode (ops : S2Ops) (qpt : Nat)
    (polys : List Nat) (hdec : ∀ p ∈ polys, (ops.loopFromPolygon p).isSome) :
    containsPtScan ops qpt polys =
      if polys.any (ringContainsQueryPt ops qpt) then some true else none := by
  induction polys with
  | nil => rfl
  | cons p ps ih =>
    have hp : (ops.loopFromPolygon p).isSome := hdec p (List.mem_cons_self p ps)
    obtain ⟨l, hl⟩ := Option.isSome_iff_exists.mp hp
    have hring : ringContainsQueryPt ops qpt p = ops.containsPoint l qpt := by
      unfold ringContainsQueryPt
      rw [hl]
    unfold containsPtScan
    rw [hl]
    rcases hcp : ops.containsPoint l qpt with _ | _
    · simp only [if_neg (Bool.not_eq_true _ ▸ hcp), Bool.false_eq_true,
        if_false]
      rw [ih fun x hx => hdec x (List.mem_cons_of_mem p hx)]
      simp [List.any_cons, hring, hcp]
    · simp [List.any_cons, hring, hcp]

/-- Under `hdec`, `multiPolygonContainsLoop` is exactly "some constituent
ring contains the loop". -/
theorem multiPolygonContainsLoop_eq_of_decode (ops : S2Ops) (l : Nat)
    (polys : List Nat) (hdec : ∀ p ∈ polys, (ops.loopFromPolygon p).isSome) :
    multiPolygonContainsLoop ops polys l =
      polys.any (ringContainsLoop ops l) := by
  induction polys with
  | nil => rfl
  | cons p ps ih =>
    have hp : (ops.loopFromPolygon p).isSome := hdec p (List.mem_cons_self p ps)
    obtain ⟨s2l, hl⟩ := Option.isSome_iff_exists.mp hp
    have hring : ringContainsLoop ops l p = ops.loopContains s2l l := by
      unfold ringContainsLoop
      rw [hl]
    unfold multiPolygonContainsLoop
    rw [hl, ih fun x hx => hdec x (List.mem_cons_of_mem p hx)]
    simp [List.any_cons, hring]

/-- Counterexample to C2 as stated: with polygon `0` unable to convert to a
loop, the contains evaluator returns false on the candidate `[0, 1]` even
though ring `1` contains the query point, so "true iff ANY constituent
ring contains the point" fails. -/
theorem C2_counterexample :
    GeoQueryData.MatchesFilter ⟨some 5, [], none, QueryTypeContains⟩
      opsBadFirstRing (.multiPolygon [0, 1]) = some false ∧
    [0, 1].any (ringContainsQueryPt opsBadFirstRing 5) = true := by
  decide

/-- C2 amended: restricted to candidates all of whose constituent rings
convert to loops, a contains filter holding a point matches a
multi-polygon iff ANY constituent ring contains the point, and a contains
filter holding a loop set matches iff EVERY filter loop is contained by
SOME constituent ring. -/
theorem C2_contains_multipolygon_amended (ops : S2Ops) (q : GeoQueryData)
    (polys : List Nat) (hqt : q.qtype = QueryTypeContains)
    (hdec : ∀ p ∈ polys, (ops.loopFromPolygon p).isSome) :
    (∀ qpt, q.pt = some qpt → q.loops = [] →
      q.MatchesFilter ops (.multiPolygon polys) =
        some (polys.any (ringContainsQueryPt ops qpt))) ∧
    (q.pt = none → q.loops ≠ [] →
      q.MatchesFilter ops (.multiPolygon polys) =
        some (q.loops.all fun l => polys.any (ringContainsLoop ops l))) := by
  have hmf : q.MatchesFilter ops (.multiPolygon polys) =
      q.contains ops (.multiPolygon polys) := by
    unfold GeoQueryData.MatchesFilter
    rw [if_neg (by simp [hqt, QueryTypeContains, QueryTypeWithin]), if_pos hqt]
  constructor
  · intro qpt hpt hloops
    rw [hmf]
    unfold GeoQueryData.contains
    rw [if_neg (by simp [hpt])]
    simp only [hpt, hloops]
    rw [containsPtScan_eq_of_decode ops qpt polys hdec]
    rcases hany : polys.any (ringContainsQueryPt ops qpt) with _ | _
    · simp
    · simp
  · intro hpt hloops
    rw [hmf]
    unfold GeoQueryData.contains
    rw [if_neg (by simp [hloops])]
    simp only [hpt, hloops, ne_eq, not_false_iff, if_true]
    congr 1
    have hfun : (fun l => multiPolygonContainsLoop ops polys l) =
        fun l => polys.any (ringContainsLoop ops l) :=
      funext fun l => multiPolygonContainsLoop_eq_of_decode ops l polys hdec
    rw [hfun]

/-- Witness for the amended C2: both the point form and the loop-set form,
evaluated on the all-positive operations. -/
theorem C2_witness :
    GeoQueryData.MatchesFilter ⟨some 5, [], none, QueryTypeContains⟩ opsAll
      (.multiPolygon [1, 2]) = some true ∧
    GeoQueryData.MatchesFilter ⟨none, [7], none, QueryTypeContains⟩ opsAll
      (.multiPolygon [1, 2]) = some true := by
  constructor
  · rw [(C2_contains_multipolygon_amended opsAll
      ⟨some 5, [], none, QueryTypeContains⟩ [1, 2] rfl (by decide)).1 5 rfl rfl]
    decide
  · rw [(C2_contains_multipolygon_amended opsAll
      ⟨none, [7], none, QueryTypeContains⟩ [1, 2] rfl (by decide)).2 rfl
      (by decide)]
    decide

/-- If polygon `bad` fails to convert and no polygon before it intersects a
query loop, the multi-polygon intersects scan yields false no matter what
follows `bad`. -/
theorem intersectsMultiScan_abort (ops : S2Ops) (qloops : List Nat)
    (pre : List Nat) (bad : Nat) (post : List Nat)
    (hbad : ops.loopFromPolygon bad = none)
    (hpre : ∀ p ∈ pre, ringIntersectsSomeLoop ops qloops p = false) :
    intersectsMultiScan ops qloops (pre ++ bad :: post) = false := by
  induction pre with
  | nil =>
    rw [List.nil_append]
    simp only [intersectsMultiScan, hbad]
  | cons p ps ih =>
    have hp : ringIntersectsSomeLoop ops qloops p = false :=
      hpre p (List.mem_cons_self p ps)
    have hrest : ∀ x ∈ ps, ringIntersectsSomeLoop ops qloops x = false :=
      fun x hx => hpre x (List.mem_cons_of_mem p hx)
    rw [List.cons_append]
    cases hdec : ops.loopFromPolygon p with
    | none => simp only [intersectsMultiScan, hdec]
    | some l =>
      have hany : (qloops.any fun loop => ops.loopIntersects l loop) = false := by
        have hx := hp
        unfold ringIntersectsSomeLoop at hx
        rw [hdec] at hx
        exact hx
      simp only [intersectsMultiScan, hdec, hany, ih hrest, Bool.false_or]

/-- C9: in the intersects evaluator on a multi-polygon candidate, one ring
that fails to convert makes the whole candidate false — even when a ring
after it would intersect a filter loop — as long as no earlier ring
already intersected. -/
theorem C9_intersects_bad_ring_aborts (ops : S2Ops) (q : GeoQueryData)
    (pre : List Nat) (bad : Nat) (post : List Nat) (hl : q.loops ≠ [])
    (hbad : ops.loopFromPolygon bad = none)
    (hpre : ∀ p ∈ pre, ringIntersectsSomeLoop ops q.loops p = false) :
    q.intersects ops (.multiPolygon (pre ++ bad :: post)) = some false := by
  unfold GeoQueryData.intersects
  rw [if_neg hl]
  simp only [intersectsMultiScan_abort ops q.loops pre bad post hbad hpre]

/-- Witness for C9: candidate `[0, 1]` where ring `0` fails to convert and
ring `1` would intersect the only filter loop; the evaluator still says
false. -/
theorem C9_witness :
    GeoQueryData.intersects ⟨none, [7], none, QueryTypeIntersects⟩
      opsBadFirstRing (.multiPolygon [0, 1]) = some false ∧
    ringIntersectsSomeLoop opsBadFirstRing [7] 1 = true := by
  refine ⟨?_, by decide⟩
  exact C9_intersects_bad_ring_aborts opsBadFirstRing
    ⟨none, [7], none, QueryTypeIntersects⟩ [] 0 [1] (by decide) (by decide)
    (by intro p hp; cases hp)

/-- C10: a near filter whose cap is absent evaluates every candidate to
false (the invariant violation is silently masked), while a within,
contains, or intersects filter with all three fields empty panics in its
assertion. -/
theorem C10_near_nil_cap_masked (ops : S2Ops) (q : GeoQueryData) (g : GeomT) :
    (q.qtype = QueryTypeNear → q.cap = none →
      q.MatchesFilter ops g = some false) ∧
    (q.pt = none → q.loops = [] → q.cap = none →
      (q.qtype = QueryTypeWithin ∨ q.qtype = QueryTypeContains ∨
        q.qtype = QueryTypeIntersects) →
      q.MatchesFilter ops g = none) := by
  constructor
  · intro h hc
    unfold GeoQueryData.MatchesFilter
    rw [if_neg (by simp [h, QueryTypeNear, QueryTypeWithin]),
        if_neg (by simp [h, QueryTypeNear, QueryTypeContains]),
        if_neg (by simp [h, QueryTypeNear, QueryTypeIntersects]),
        if_pos h, hc]
  · intro hpt hloops hcap hqt
    rcases hqt with h | h | h
    · unfold GeoQueryData.MatchesFilter
      rw [if_pos h]
      unfold GeoQueryData.isWithin
      rw [if_pos ⟨hpt, hloops, hcap⟩]
    · unfold GeoQueryData.MatchesFilter
      rw [if_neg (by simp [h, QueryTypeContains, QueryTypeWithin]), if_pos h]
      unfold GeoQueryData.contains
      rw [if_pos ⟨hpt, hloops⟩]
    · unfold GeoQueryData.MatchesFilter
      rw [if_neg (by simp [h, QueryTypeIntersects, QueryTypeWithin]),
          if_neg (by simp [h, QueryTypeIntersects, QueryTypeContains]),
          if_pos h]
      unfold GeoQueryData.intersects
      rw [if_pos hloops]

/-- Witness for C10: a capless near filter returns false on a concrete
point candidate, and the corresponding empty within filter panics. -/
theorem C10_witness :
    GeoQueryData.MatchesFilter ⟨none, [], none, QueryTypeNear⟩ opsAll
      (.point 4) = some false ∧
    GeoQueryData.MatchesFilter ⟨none, [], none, QueryTypeWithin⟩ opsAll
      (.point 4) = none := by
  constructor
  · exact (C10_near_nil_cap_masked opsAll ⟨none, [], none, QueryTypeNear⟩
      (.point 4)).1 rfl rfl
  · exact (C10_near_nil_cap_masked opsAll ⟨none, [], none, QueryTypeWithin⟩
      (.point 4)).2 rfl rfl rfl (Or.inl rfl)

/-- The normalized region of `queryTokensGeo` is a point (no loops) or a
loop set (no point). -/
theorem normalizeRegion_shape (ops : S2Ops) (g : GeomT) (pt : Option Nat)
    (loops : List Nat) (hn : normalizeRegion ops g = .ok (pt, loops)) :
    pt = none ∨ (pt ≠ none ∧ loops = []) := by
  cases g with
  | point v =>
    unfold normalizeRegion at hn
    injection hn with hn
    injection hn with h1 h2
    refine Or.inr ⟨?_, h2.symm⟩
    rw [← h1]
    simp
  | polygon v =>
    cases hd : ops.loopFromPolygon v with
    | none => simp [normalizeRegion, hd] at hn
    | some l =>
      simp only [normalizeRegion, hd] at hn
      injection hn with hn
      injection hn with h1 h2
      exact Or.inl h1.symm
  | multiPolygon v =>
    cases hd : loopsFromMultiPolygon ops v with
    | none => simp [normalizeRegion, hd] at hn
    | some ls =>
      simp only [normalizeRegion, hd] at hn
      injection hn with hn
      injection hn with h1 h2
      exact Or.inl h1.symm
  | other => simp [normalizeRegion] at hn

/-- Every filter that `queryTokensGeo` successfully returns satisfies the
single-discriminant invariant. -/
theorem wellFormed_of_queryTokensGeo (ops : S2Ops) (qt : QueryType)
    (g : GeomT) (d : Rat) (toks : List String) (q : GeoQueryData)
    (h : queryTokensGeo ops qt g d = some (.ok (toks, q))) :
    wellFormedFilter q := by
  unfold queryTokensGeo at h
  split at h
  next e heq => simp at h
  next pt loops heq =>
    split at h
    next hass => simp at h
    next hass =>
      split at h
      next hic => simp at h
      next parents cover hic =>
        split at h
        next hqt =>
          split at h
          next hl => simp at h
          next hl =>
            injection h with h1
            injection h1 with h2
            injection h2 with h3 h4
            subst h4
            exact Or.inl ⟨hqt, rfl, hl, rfl⟩
        next hqt =>
          split at h
          next hqt2 =>
            injection h with h1
            injection h1 with h2
            injection h2 with h3 h4
            subst h4
            refine Or.inr (Or.inl ⟨hqt2, rfl, ?_⟩)
            rcases normalizeRegion_shape ops g pt loops heq with hpt | ⟨hpt, hl⟩
            · exact Or.inr ⟨hpt, fun hl0 => hass ⟨hl0, hpt⟩⟩
            · exact Or.inl ⟨hpt, hl⟩
          next hqt2 =>
            split at h
            next hqt3 =>
              split at h
              next hl => simp at h
              next hl =>
                split at h
                next p hpt =>
                  unfold nearQueryKeys at h
                  split at h
                  next hd => simp at h
                  next hd =>
                    injection h with h1
                    injection h1 with h2
                    injection h2 with h3 h4
                    subst h4
                    exact Or.inr (Or.inr (Or.inr ⟨rfl, rfl, rfl, by simp⟩))
                next hpt => simp at h
            next hqt3 =>
              split at h
              next hqt4 =>
                split at h
                next hl => simp at h
                next hl =>
                  injection h with h1
                  injection h1 with h2
                  injection h2 with h3 h4
                  subst h4
                  exact Or.inr (Or.inr (Or.inl ⟨hqt4, rfl, hl, rfl⟩))
              next hqt4 => simp at h

/-- `isWithin` only panics when all three filter fields are empty. -/
theorem isWithin_isSome (ops : S2Ops) (q : GeoQueryData) (g : GeomT)
    (h : ¬(q.pt = none ∧ q.loops = [] ∧ q.cap = none)) :
    (q.isWithin ops g).isSome := by
  unfold GeoQueryData.isWithin
  rw [if_neg h]
  cases g with
  | point gp =>
    cases hpt : q.pt with
    | some qpt => simp [hpt]
    | none =>
      by_cases hl : q.loops = []
      · cases hc : q.cap with
        | some c => simp [hpt, hl, hc]
        | none => exact absurd ⟨hpt, hl, hc⟩ h
      · simp [hpt, hl]
  | polygon poly =>
    cases hd : ops.loopFromPolygon poly with
    | none => simp [hd]
    | some l =>
      by_cases hl : q.loops = []
      · cases hc : q.cap with
        | some c => simp [hd, hl, hc]
        | none => simp [hd, hl, hc]
      · simp [hd, hl]
  | multiPolygon polys =>
    by_cases hl : q.loops = []
    · cases hc : q.cap with
      | some c => simp [hl, hc]
      | none => simp [hl, hc]
    · simp [hl]
  | other => simp

/-- `contains` only panics when both the point and the loop set are empty. -/
theorem contains_isSome (ops : S2Ops) (q : GeoQueryData) (g : GeomT)
    (h : ¬(q.pt = none ∧ q.loops = [])) :
    (q.contains ops g).isSome := by
  unfold GeoQueryData.contains
  rw [if_neg h]
  cases g with
  | point gp => simp
  | polygon poly =>
    cases hd : ops.loopFromPolygon poly with
    | none => simp [hd]
    | some l =>
      cases hpt : q.pt with
      | some qpt => simp [hd, hpt]
      | none => simp [hd, hpt]
  | multiPolygon polys =>
    cases hpt : q.pt with
    | some qpt =>
      cases hscan : containsPtScan ops qpt polys with
      | some b => simp [hpt, hscan]
      | none =>
        by_cases hl : q.loops = []
        · simp [hpt, hscan, hl]
        · simp [hpt, hscan, hl]
    | none =>
      by_cases hl : q.loops = []
      · simp [hpt, hl]
      · simp [hpt, hl]
  | other => simp

/-- `intersects` only panics when the loop set is empty. -/
theorem intersects_isSome (ops : S2Ops) (q : GeoQueryData) (g : GeomT)
    (h : q.loops ≠ []) : (q.intersects ops g).isSome := by
  unfold GeoQueryData.intersects
  rw [if_neg h]
  cases g with
  | point gp => simp
  | polygon poly =>
    cases hd : ops.loopFromPolygon poly with
    | none => simp [hd]
    | some l => simp [hd]
  | multiPolygon polys => simp
  | other => simp

/-- On a well-formed filter the evaluator never reaches a panic. -/
theorem matchesFilter_isSome_of_wellFormed (ops : S2Ops) (q : GeoQueryData)
    (hwf : wellFormedFilter q) (g : GeomT) :
    (q.MatchesFilter ops g).isSome := by
  unfold GeoQueryData.MatchesFilter
  rcases hwf with ⟨hqt, hpt, hl, hc⟩ | ⟨hqt, hc, hsub⟩ |
    ⟨hqt, hpt, hl, hc⟩ | ⟨hqt, hpt, hl, hc⟩
  · rw [if_pos hqt]
    exact isWithin_isSome ops q g (by simp [hl])
  · rw [if_neg (by simp [hqt, QueryTypeContains, QueryTypeWithin]),
      if_pos hqt]
    refine contains_isSome ops q g ?_
    rcases hsub with ⟨hpt, hl⟩ | ⟨hpt, hl⟩
    · simp [hpt]
    · simp [hl]
  · rw [if_neg (by simp [hqt, QueryTypeIntersects, QueryTypeWithin]),
      if_neg (by simp [hqt, QueryTypeIntersects, QueryTypeContains]),
      if_pos hqt]
    exact intersects_isSome ops q g hl
  · rw [if_neg (by simp [hqt, QueryTypeNear, QueryTypeWithin]),
      if_neg (by simp [hqt, QueryTypeNear, QueryTypeContains]),
      if_neg (by simp [hqt, QueryTypeNear, QueryTypeIntersects]),
      if_pos hqt]
    cases hcv : q.cap with
    | none => exact absurd hcv hc
    | some c => exact isWithin_isSome ops q g (by simp [hcv])

/-- On a well-formed filter an unclassifiable candidate evaluates to
false. -/
theorem matchesFilter_other_false (ops : S2Ops) (q : GeoQueryData)
    (hwf : wellFormedFilter q) :
    q.MatchesFilter ops GeomT.other = some false := by
  unfold GeoQueryData.MatchesFilter
  rcases hwf with ⟨hqt, hpt, hl, hc⟩ | ⟨hqt, hc, hsub⟩ |
    ⟨hqt, hpt, hl, hc⟩ | ⟨hqt, hpt, hl, hc⟩
  · rw [if_pos hqt]
    unfold GeoQueryData.isWithin
    rw [if_neg (by simp [hl])]
  · rw [if_neg (by simp [hqt, QueryTypeContains, QueryTypeWithin]),
      if_pos hqt]
    unfold GeoQueryData.contains
    have hne : ¬(q.pt = none ∧ q.loops = []) := by
      rcases hsub with ⟨hpt, hl⟩ | ⟨hpt, hl⟩
      · simp [hpt]
      · simp [hl]
    rw [if_neg hne]
  · rw [if_neg (by simp [hqt, QueryTypeIntersects, QueryTypeWithin]),
      if_neg (by simp [hqt, QueryTypeIntersects, QueryTypeContains]),
      if_pos hqt]
    unfold GeoQueryData.intersects
    rw [if_neg hl]
  · rw [if_neg (by simp [hqt, QueryTypeNear, QueryTypeWithin]),
      if_neg (by simp [hqt, QueryTypeNear, QueryTypeContains]),
      if_neg (by simp [hqt, QueryTypeNear, QueryTypeIntersects]),
      if_pos hqt]
    cases hcv : q.cap with
    | none => exact absurd hcv hc
    | some c =>
      unfold GeoQueryData.isWithin
      rw [if_neg (by simp [hcv])]

/-- C6: every query filter returned by token generation has exactly one
populated discriminant among point / non-empty loop set / cap, matching
its predicate kind. -/
theorem C6_filter_single_discriminant (ops : S2Ops) (qt : QueryType)
    (g : GeomT) (d : Rat) (toks : List String) (q : GeoQueryData)
    (h : queryTokensGeo ops qt g d = some (.ok (toks, q))) :
    wellFormedFilter q :=
  wellFormed_of_queryTokensGeo ops qt g d toks q h

/-- Witness for C6: a concrete within run produces a well-formed filter. -/
theorem C6_witness :
    queryTokensGeo opsAll QueryTypeWithin (.polygon 1) 0 =
      some (.ok (["p/1"], ⟨none, [1], none, QueryTypeWithin⟩)) ∧
    wellFormedFilter ⟨none, [1], none, QueryTypeWithin⟩ :=
  ⟨rfl, C6_filter_single_discriminant opsAll QueryTypeWithin (.polygon 1) 0
    ["p/1"] ⟨none, [1], none, QueryTypeWithin⟩ rfl⟩

/-- C5: a filter actually produced by the token generator never reaches an
assertion in the evaluator — every candidate gets a boolean — and an
unclassifiable candidate yields false. -/
theorem C5_evaluator_never_panics (ops : S2Ops) (qt : QueryType) (g : GeomT)
    (d : Rat) (toks : List String) (q : GeoQueryData)
    (h : queryTokensGeo ops qt g d = some (.ok (toks, q))) :
    (∀ cand, (q.MatchesFilter ops cand).isSome) ∧
    q.MatchesFilter ops GeomT.other = some false := by
  have hwf := wellFormed_of_queryTokensGeo ops qt g d toks q h
  exact ⟨fun cand => matchesFilter_isSome_of_wellFormed ops q hwf cand,
    matchesFilter_other_false ops q hwf⟩

/-- Witness for C5: the filter of a concrete within run evaluates a point
candidate to a boolean and an unknown geometry to false. -/
theorem C5_witness :
    (GeoQueryData.MatchesFilter ⟨none, [1], none, QueryTypeWithin⟩ opsAll
      (.point 3)).isSome = true ∧
    GeoQueryData.MatchesFilter ⟨none, [1], none, QueryTypeWithin⟩ opsAll
      GeomT.other = some false := by
  have h := C5_evaluator_never_panics opsAll QueryTypeWithin (.polygon 1) 0
    ["p/1"] ⟨none, [1], none, QueryTypeWithin⟩ rfl
  exact ⟨h.1 (.point 3), h.2⟩

/-- C3: the intersects key set is the union of the within derivation
(parent family over the region's cover) and the contains derivation
(cover family over the region's ancestors). -/
theorem C3_intersects_keys_union (ops : S2Ops) (g : GeomT) (d : Rat)
    (toks : List String) (qf : GeoQueryData) (parents cover : List Nat)
    (hic : ops.indexCells g = some (parents, cover))
    (h : queryTokensGeo ops QueryTypeIntersects g d = some (.ok (toks, qf))) :
    ∀ t, t ∈ toks ↔
      t ∈ createTokens cover parentTag ∨ t ∈ createTokens parents coverTag := by
  unfold queryTokensGeo at h
  split at h
  next e heq => simp at h
  next pt loops heq =>
    split at h
    next hass => simp at h
    next hass =>
      split at h
      next hic2 => rw [hic2] at hic; simp at hic
      next parents2 cover2 hic2 =>
        rw [hic] at hic2
        injection hic2 with hic2
        injection hic2 with hp hc
        subst hp
        subst hc
        rw [if_neg (by simp [QueryTypeIntersects, QueryTypeWithin]),
            if_neg (by simp [QueryTypeIntersects, QueryTypeContains]),
            if_neg (by simp [QueryTypeIntersects, QueryTypeNear]),
            if_pos rfl] at h
        split at h
        next hl => simp at h
        next hl =>
          injection h with h1
          injection h1 with h2
          injection h2 with h3 h4
          subst h3
          intro t
          unfold parentCoverTokens
          exact List.mem_append

/-- Witness for C3: the concrete intersects run on polygon `1` yields
exactly the within keys followed by the contains keys. -/
theorem C3_witness :
    "p/1" ∈ (["p/1", "c/0"] : List String) ↔
      "p/1" ∈ createTokens [1] parentTag ∨ "p/1" ∈ createTokens [0] coverTag :=
  C3_intersects_keys_union opsAll (.polygon 1) 0 ["p/1", "c/0"]
    ⟨none, [1], none, QueryTypeIntersects⟩ [0] [1] rfl rfl "p/1"

/-- C7: within/intersects on a point-only region, near on a polygon or
non-empty multi-polygon region, and an unrecognized predicate kind all
fail in `queryTokensGeo` with their respective errors and produce no keys
or filter. -/
theorem C7_token_generation_geometry_errors (ops : S2Ops) (d : Rat) :
    (∀ v parents cover, ops.indexCells (.point v) = some (parents, cover) →
      queryTokensGeo ops QueryTypeWithin (.point v) d =
        some (.error .requirePolygonWithin) ∧
      queryTokensGeo ops QueryTypeIntersects (.point v) d =
        some (.error .requirePolygonIntersects)) ∧
    (∀ v l parents cover, ops.loopFromPolygon v = some l →
      ops.indexCells (.polygon v) = some (parents, cover) →
      queryTokensGeo ops QueryTypeNear (.polygon v) d =
        some (.error .cannotUsePolygonNear)) ∧
    (∀ vs ls parents cover, loopsFromMultiPolygon ops vs = some ls →
      ls ≠ [] → ops.indexCells (.multiPolygon vs) = some (parents, cover) →
      queryTokensGeo ops QueryTypeNear (.multiPolygon vs) d =
        some (.error .cannotUsePolygonNear)) ∧
    (∀ qt v l parents cover, qt ≠ QueryTypeWithin → qt ≠ QueryTypeContains →
      qt ≠ QueryTypeNear → qt ≠ QueryTypeIntersects →
      ops.loopFromPolygon v = some l →
      ops.indexCells (.polygon v) = some (parents, cover) →
      queryTokensGeo ops qt (.polygon v) d =
        some (.error .unknownQueryType)) := by
  refine ⟨fun v parents cover hic => ⟨?_, ?_⟩,
    fun v l parents cover hd hic => ?_,
    fun vs ls parents cover hd hne hic => ?_,
    fun qt v l parents cover h0 h1 h3 h2 hd hic => ?_⟩
  · simp [queryTokensGeo, normalizeRegion, hic]
  · simp [queryTokensGeo, normalizeRegion, hic, QueryTypeIntersects,
      QueryTypeWithin, QueryTypeContains, QueryTypeNear]
  · simp [queryTokensGeo, normalizeRegion, hd, hic, QueryTypeNear,
      QueryTypeWithin, QueryTypeContains, QueryTypeIntersects]
  · simp [queryTokensGeo, normalizeRegion, hd, hne, hic, QueryTypeNear,
      QueryTypeWithin, QueryTypeContains, QueryTypeIntersects]
  · simp [queryTokensGeo, normalizeRegion, hd, hic, h0, h1, h2, h3]

/-- Witness for C7: each error is produced at a concrete input. -/
theorem C7_witness :
    queryTokensGeo opsAll QueryTypeWithin (.point 4) 0 =
      some (.error .requirePolygonWithin) ∧
    queryTokensGeo opsAll QueryTypeIntersects (.point 4) 0 =
      some (.error .requirePolygonIntersects) ∧
    queryTokensGeo opsAll QueryTypeNear (.polygon 1) 0 =
      some (.error .cannotUsePolygonNear) ∧
    queryTokensGeo opsAll QueryTypeNear (.multiPolygon [1, 2]) 0 =
      some (.error .cannotUsePolygonNear) ∧
    queryTokensGeo opsAll 9 (.polygon 1) 0 =
      some (.error .unknownQueryType) := by
  have h := C7_token_generation_geometry_errors opsAll 0
  refine ⟨(h.1 4 [0] [1] rfl).1, (h.1 4 [0] [1] rfl).2,
    h.2.1 1 1 [0] [1] rfl rfl,
    h.2.2.1 [1, 2] [1, 2] [0] [1] rfl (by decide) rfl,
    h.2.2.2 9 1 1 [0] [1] (by decide) (by decide) (by decide) (by decide)
      rfl rfl⟩

/-- The lower-casing of the literal function name "near". -/
theorem lowerString_near : lowerString "near" = "near" := by decide

/-- The near path of `GetGeoTokens` on a well-formed four-argument call. -/
theorem GetGeoTokens_near_eq (ops : S2Ops) (attr geomLit distLit : String) :
    GetGeoTokens ops ["near", attr, geomLit, distLit] =
      match ops.parseFloat distLit with
      | none => some (.error .distanceParseFailure)
      | some maxDist =>
        if maxDist < 0 then some (.error .negativeDistance)
        else
          match ops.convertToGeom geomLit with
          | none => some (.error .geometryConvertFailure)
          | some g => queryTokensGeo ops QueryTypeNear g maxDist := by
  unfold GetGeoTokens
  rw [if_neg (by simp)]
  simp [List.headD_cons, lowerString_near]

/-- C8: a near call whose distance parses to a non-positive value returns
an error (negative distance before geometry conversion, `d = 0` after the
point normalizes), producing neither keys nor a filter; an unparseable
distance literal is also an error. -/
theorem C8_near_nonpositive_distance (ops : S2Ops)
    (attr geomLit distLit : String) :
    (∀ d, ops.parseFloat distLit = some d → d < 0 →
      GetGeoTokens ops ["near", attr, geomLit, distLit] =
        some (.error .negativeDistance)) ∧
    (∀ d p parents cover, ops.parseFloat distLit = some d → d = 0 →
      ops.convertToGeom geomLit = some (.point p) →
      ops.indexCells (.point p) = some (parents, cover) →
      GetGeoTokens ops ["near", attr, geomLit, distLit] =
        some (.error .invalidDistance)) ∧
    (ops.parseFloat distLit = none →
      GetGeoTokens ops ["near", attr, geomLit, distLit] =
        some (.error .distanceParseFailure)) := by
  refine ⟨fun d hparse hneg => ?_,
    fun d p parents cover hparse hzero hconv hic => ?_,
    fun hparse => ?_⟩
  · rw [GetGeoTokens_near_eq, hparse]
    simp [hneg]
  · subst hzero
    rw [GetGeoTokens_near_eq, hparse]
    simp [hconv, hic, queryTokensGeo, normalizeRegion, nearQueryKeys,
      QueryTypeNear, QueryTypeWithin, QueryTypeContains, QueryTypeIntersects]
  · rw [GetGeoTokens_near_eq, hparse]

/-- Witness for C8: the zero-distance and parse-failure cases at concrete
inputs. -/
theorem C8_witness :
    GetGeoTokens opsZeroDist ["near", "attr", "geo", "0"] =
      some (.error .invalidDistance) ∧
    GetGeoTokens opsNoParse ["near", "attr", "geo", "x"] =
      some (.error .distanceParseFailure) :=
  ⟨(C8_near_nonpositive_distance opsZeroDist "attr" "geo" "0").2.1 0 0 [0] [1]
      rfl rfl rfl rfl,
    (C8_near_nonpositive_distance opsNoParse "attr" "geo" "x").2.2 rfl⟩

/-- The scanner loop, on equal-length lists and a panic-free filter, keeps
exactly the identifiers whose paired value passes the keep condition. -/
theorem filterGeoLoop_eq (ops : S2Ops) (q : GeoQueryData)
    (hsafe : ∀ g, (q.MatchesFilter ops g).isSome) :
    ∀ (uids : List Nat) (values : List TaskValue),
      uids.length = values.length →
      filterGeoLoop ops q uids values =
        some (((uids.zip values).filter fun uv =>
          keepCandidate ops q uv.2).map Prod.fst) := by
  intro uids
  induction uids with
  | nil =>
    intro values hlen
    cases values with
    | nil => rfl
    | cons v vs => simp at hlen
  | cons u us ih =>
    intro values hlen
    cases values with
    | nil => simp at hlen
    | cons v vs =>
      have hlen' : us.length = vs.length := by simpa using hlen
      by_cases hval : v.val = []
      · have hkeep : keepCandidate ops q v = false := by
          simp [keepCandidate, hval]
        unfold filterGeoLoop
        rw [if_pos hval, ih vs hlen']
        simp [List.filter_cons, hkeep]
      · by_cases htype : v.valType = GeoID
        · cases hdec : ops.decodeGeo v.val with
          | none =>
            have hkeep : keepCandidate ops q v = false := by
              simp [keepCandidate, hval, htype, hdec]
            unfold filterGeoLoop
            rw [if_neg hval, if_neg (by simp [htype]), hdec, ih vs hlen']
            simp [List.filter_cons, hkeep]
          | some g =>
            obtain ⟨b, hb⟩ := Option.isSome_iff_exists.mp (hsafe g)
            cases b with
            | true =>
              have hkeep : keepCandidate ops q v = true := by
                simp [keepCandidate, hval, htype, hdec, hb]
              unfold filterGeoLoop
              rw [if_neg hval, if_neg (by simp [htype])]
              simp only [hdec, hb, ih vs hlen']
              simp [List.filter_cons, hkeep]
            | false =>
              have hkeep : keepCandidate ops q v = false := by
                simp [keepCandidate, hval, htype, hdec, hb]
              unfold filterGeoLoop
              rw [if_neg hval, if_neg (by simp [htype])]
              simp only [hdec, hb, ih vs hlen']
              simp [List.filter_cons, hkeep]
        · have hkeep : keepCandidate ops q v = false := by
            simp [keepCandidate, hval, htype]
          unfold filterGeoLoop
          rw [if_neg hval, if_pos (by simp [htype]), ih vs hlen']
          simp [List.filter_cons, hkeep]

/-- C4: on equal-length inputs with a panic-free filter, the scanner keeps
exactly the identifiers whose value is non-empty, tagged as geometry,
decodable, and evaluated true — a per-candidate decode failure only drops
that candidate — and the output is a subsequence of the input identifiers
in their original order. -/
theorem C4_scanner_keeps_exactly (ops : S2Ops) (uids : List Nat)
    (values : List TaskValue) (q : GeoQueryData)
    (hlen : uids.length = values.length)
    (hsafe : ∀ g, (q.MatchesFilter ops g).isSome) :
    FilterGeoUids ops uids values q =
      some (((uids.zip values).filter fun uv =>
        keepCandidate ops q uv.2).map Prod.fst) ∧
    ∀ out, FilterGeoUids ops uids values q = some out →
      out.Sublist uids := by
  have hfu : FilterGeoUids ops uids values q =
      filterGeoLoop ops q uids values := by
    unfold FilterGeoUids
    rw [if_neg (by simp [hlen])]
  have hmain := filterGeoLoop_eq ops q hsafe uids values hlen
  refine ⟨hfu ▸ hmain, ?_⟩
  intro out hout
  rw [hfu, hmain] at hout
  injection hout with hout
  subst hout
  have h1 : ((uids.zip values).filter fun uv =>
      keepCandidate ops q uv.2).Sublist (uids.zip values) :=
    List.filter_sublist _
  have h2 := h1.map Prod.fst
  rw [List.map_fst_zip uids values (le_of_eq hlen)] at h2
  exact h2

/-- Witness for C4: identifiers `[1, 2, 3]` with an inside point, an empty
value, and an outside point keep exactly `[1]`. -/
theorem C4_witness :
    FilterGeoUids opsScan [1, 2, 3]
      [⟨[9], GeoID⟩, ⟨[], GeoID⟩, ⟨[8], GeoID⟩]
      ⟨none, [5], none, QueryTypeWithin⟩ = some [1] := by
  have hwf : wellFormedFilter ⟨none, [5], none, QueryTypeWithin⟩ :=
    Or.inl ⟨rfl, rfl, by decide, rfl⟩
  have h := (C4_scanner_keeps_exactly opsScan [1, 2, 3]
    [⟨[9], GeoID⟩, ⟨[], GeoID⟩, ⟨[8], GeoID⟩]
    ⟨none, [5], none, QueryTypeWithin⟩ rfl
    (matchesFilter_isSome_of_wellFormed opsScan
      ⟨none, [5], none, QueryTypeWithin⟩ hwf)).1
  rw [h]
  decide
